import Mathlib

/-!
Verification development for the advanced worksheet generator
(src/advanced_worksheet_generator.py).

The program drives a browser session to fill a remote form and then
detects the generated PDF artifact through four detection methods.
We embed the decision logic shallowly:

* time is discrete (one unit per polling iteration, matching the one
  second sleep at the bottom of the polling loop);
* the download directory is a time-indexed listing of file names;
* browser and HTTP effects are oracles recorded in an environment
  structure, so that the control flow of the python code becomes a
  pure function from the environment to an outcome record.
-/

/-- Embedding of the python string method s.endswith(suffix): the
character sequence of the suffix is a suffix of the character sequence
of s. -/
def strEndsWith (s suffix : String) : Bool := suffix.data.isSuffixOf s.data

/-- A file name counts as a completed download when it ends in .pdf
(python: f.endswith(".pdf") at line 60). -/
def isPdfName (f : String) : Bool := strEndsWith f ".pdf"

/-- A file name counts as an in-progress download when it ends in
.crdownload (python: f.endswith(".crdownload") at line 67). -/
def isInProgressName (f : String) : Bool := strEndsWith f ".crdownload"

/-- new_files = current_files - initial_files (line 57): the directory
entries not present in the pre-submission snapshot. -/
def newFiles (current initial : List String) : List String :=
  current.filter (fun f => !(initial.contains f))

/-- pdf_files = [f for f in new_files if f.endswith(".pdf")] (line 60). -/
def pdfFiles (l : List String) : List String := l.filter isPdfName

/-- The in-progress entries of a new-file set (line 67); they are only
logged and never satisfy completion. -/
def inProgressFiles (l : List String) : List String := l.filter isInProgressName

/-- The fixed grace sleep (seconds) performed after a completed file is
detected and before returning (time.sleep(2) at line 63). -/
def gracePeriod : Nat := 2

/-- The polling loop of wait_for_pdf_download (lines 55-73), with the
current poll time and the remaining number of iterations explicit.
Each iteration lists the directory, returns the first new .pdf entry if
one exists, and otherwise sleeps one second and retries; the loop body
runs once per time unit while the elapsed time is below the timeout.
Returns the detected file name together with its detection time. -/
def waitForPdfDownloadTimedAux (listing : Nat → List String)
    (initial : List String) : Nat → Nat → Option (String × Nat)
  | _, 0 => none
  | t, fuel + 1 =>
    match pdfFiles (newFiles (listing t) initial) with
    | f :: _ => some (f, t)
    | [] => waitForPdfDownloadTimedAux listing initial (t + 1) fuel

/-- wait_for_pdf_download (lines 52-73): polls from time 0 for at most
timeout iterations and returns the detected file name, or none when the
timeout expires with no completed file. -/
def waitForPdfDownload (listing : Nat → List String) (initial : List String)
    (timeout : Nat) : Option String :=
  (waitForPdfDownloadTimedAux listing initial 0 timeout).map Prod.fst

/-- The time at which wait_for_pdf_download returns in the success case:
the detection time plus the fixed grace sleep (line 63). -/
def waitForPdfDownloadReturnTime (listing : Nat → List String)
    (initial : List String) (timeout : Nat) : Option Nat :=
  (waitForPdfDownloadTimedAux listing initial 0 timeout).map
    (fun p => p.2 + gracePeriod)

/-- The four artifact-detection methods of the acquisition phase
(lines 559-634), in their source order. -/
inductive Method where
  | fsPoll
  | navWindow
  | pageLinks
  | dlButtons
  deriving DecidableEq, Repr

/-- One Download/Save button found by method 4 (line 616): the outcome
of clicking it (button.click() may raise, line 622, caught at 630), and
the directory evolution during the re-poll that follows the click. -/
structure DlButton where
  click : Except String Unit
  listingAfter : Nat → List String

/-- The environment the acquisition phase runs against, every external
observation made by lines 559-634 recorded as an oracle:
listing and initialFiles feed wait_for_pdf_download (line 560);
currentUrl is driver.current_url read at line 573; windowCount is
len(driver.window_handles) (line 577); lastWindowUrl is the address of
the newest window after switching (line 582); fetch is requests.get
(lines 587 and 604); downloadLinks are the hrefs of the .pdf anchors
(line 595); downloadButtons are the Download/Save controls (line 616). -/
structure AcqEnv where
  listing : Nat → List String
  initialFiles : List String
  currentUrl : String
  windowCount : Nat
  lastWindowUrl : String
  fetch : String → Except String (List Nat)
  downloadLinks : List String
  downloadButtons : List DlButton

/-- The result of the acquisition phase: the boolean returned by
generate_worksheet_advanced from this region, the detection methods
reached (in order), the name the artifact was persisted under, how it
was persisted (a rename of a downloaded file, or an out-of-band HTTP
fetch), and whether an exception escaped to the outer handler at
line 640. -/
structure AcqOutcome where
  success : Bool
  attempted : List Method
  persistedAs : Option String
  renamedFrom : Option String
  fetchedFrom : Option String
  raised : Bool
  deriving DecidableEq, Repr

/-- Method 4 inner loop (lines 620-631): for each Download/Save button,
click it (an exception is caught and moves to the next button) and
re-run wait_for_pdf_download with timeout 10; the first button whose
click is followed by a completed download wins. -/
def tryDownloadButtons (initial : List String) :
    List DlButton → Option String
  | [] => none
  | b :: rest =>
    match b.click with
    | .error _ => tryDownloadButtons initial rest
    | .ok _ =>
      match waitForPdfDownload b.listingAfter initial 10 with
      | some f => some f
      | none => tryDownloadButtons initial rest

/-- Method 4 (lines 612-634): scan for Download/Save buttons, try each,
rename the detected file to the output name on success (lines 626-627);
otherwise the acquisition region returns False (line 634). -/
def acquireM4 (env : AcqEnv) (out : String) : AcqOutcome :=
  match tryDownloadButtons env.initialFiles env.downloadButtons with
  | some f =>
    ⟨true, [.fsPoll, .navWindow, .pageLinks, .dlButtons], some out, some f, none, false⟩
  | none =>
    ⟨false, [.fsPoll, .navWindow, .pageLinks, .dlButtons], none, none, none, false⟩

/-- Method 3 (lines 593-610): take the first anchor with a .pdf href,
fetch it out-of-band with requests.get inside a try block; on success
write the body to the output name and return True; on error print and
fall through to method 4 (lines 609-610). -/
def acquireM3 (env : AcqEnv) (out : String) : AcqOutcome :=
  match env.downloadLinks with
  | [] => acquireM4 env out
  | href :: _ =>
    match env.fetch href with
    | .ok _ =>
      ⟨true, [.fsPoll, .navWindow, .pageLinks], some out, none, some href, false⟩
    | .error _ => acquireM4 env out

/-- The acquisition phase of generate_worksheet_advanced (lines
559-634), run once after the Create Worksheet button is clicked.
Method 1 (line 560): wait_for_pdf_download with timeout 15; on success
rename the file to the output name (lines 563-564) and return True.
Method 2 (lines 568-591): read driver.current_url (only printed); if
more than one window handle exists, switch to the newest and, when its
address ends in .pdf, fetch it with requests.get — note this call is
not inside a try block, so a fetch error escapes to the outer handler
at line 640 and the function returns False without reaching methods 3
and 4. Methods 3 and 4 follow when method 2 does not return. -/
def acquire (env : AcqEnv) (out : String) : AcqOutcome :=
  match waitForPdfDownload env.listing env.initialFiles 15 with
  | some f => ⟨true, [.fsPoll], some out, some f, none, false⟩
  | none =>
    if env.windowCount > 1 then
      if strEndsWith env.lastWindowUrl ".pdf" then
        match env.fetch env.lastWindowUrl with
        | .ok _ =>
          ⟨true, [.fsPoll, .navWindow], some out, none, some env.lastWindowUrl, false⟩
        | .error _ => ⟨false, [.fsPoll, .navWindow], none, none, none, true⟩
      else acquireM3 env out
    else acquireM3 env out

/-- Observable events of one run of generate_worksheet_advanced, in the
order they occur: the initial page load (line 87), the form-filling
region (lines 98-521), the submit click (lines 544-555), the
best-effort diagnostic capture in the finally block (lines 648-658),
and driver.quit() (line 660). -/
inductive Event where
  | pageLoad
  | formFill
  | submitClick
  | diagnostics
  | quitDriver
  deriving DecidableEq, Repr

/-- How a run of the program ends: sys.exit with a code, or
generate_worksheet_advanced returning a boolean to the caller. -/
inductive RunOutcome where
  | exited (code : Nat)
  | returned (success : Bool)
  deriving DecidableEq, Repr

/-- setup_driver (lines 19-50): the webdriver constructor either yields
a driver or raises; on an exception the function prints guidance and
calls sys.exit(1) (line 50), which terminates the process with code 1.
The argument records the outcome of webdriver.Chrome (line 45). -/
def setupDriver (ctor : Except String Unit) : Except Nat Unit :=
  match ctor with
  | .ok _ => .ok ()
  | .error _ => .error 1

/-- generate_worksheet_advanced (lines 75-660) at run granularity.
setup_driver runs at line 83, before the try block, so a setup failure
exits the process before any page interaction and before any
diagnostics exist. Inside the try block, preSubmit summarises the
pre-acquisition body: .error means an exception reached the outer
handler (line 640, return False), .ok false means the Create Worksheet
button was not found (lines 636-638, return False), .ok true means the
submit click happened and the acquisition phase decides the result.
The finally block (lines 646-660) always attempts the diagnostics
(their own errors are swallowed at lines 657-658, hence the diag
argument does not change the trace) and then calls driver.quit(). -/
def generateRun (ctor : Except String Unit) (preSubmit : Except String Bool)
    (_diag : Except String Unit) (env : AcqEnv) (out : String) :
    RunOutcome × List Event :=
  match setupDriver ctor with
  | .error code => (.exited code, [])
  | .ok _ =>
    match preSubmit with
    | .error _ => (.returned false, [.pageLoad, .diagnostics, .quitDriver])
    | .ok false =>
      (.returned false, [.pageLoad, .formFill, .diagnostics, .quitDriver])
    | .ok true =>
      (.returned (acquire env out).success,
       [.pageLoad, .formFill, .submitClick, .diagnostics, .quitDriver])

/-- The outcome of one lookup strategy against the live page: an
internal lookup error (selenium raises, caught by the surrounding
except and treated as continue), no matching element, or a located
candidate. This is the shape of every nested try/except chain of the
file, e.g. the text-input search at lines 104-125 and the button search
at lines 524-541. -/
inductive StrategyResult (α : Type) where
  | err (msg : String)
  | miss
  | found (c : α)
  deriving DecidableEq, Repr

/-- Whether a strategy produced a candidate. -/
def StrategyResult.isFound {α : Type} : StrategyResult α → Bool
  | .found _ => true
  | _ => false

/-- Resolution over an ordered strategy list: take the first strategy
that yields a candidate; a raising strategy and a non-matching strategy
both fall through to the next (the bare except/continue pattern of
lines 120-125, 533-541 and the other selector loops); when the list is
exhausted the result is none, never an exception. -/
def resolveList {α : Type} : List (StrategyResult α) → Option α
  | [] => none
  | .err _ :: rest => resolveList rest
  | .miss :: rest => resolveList rest
  | .found c :: _ => some c

/-- The form-filling region processes each intent in turn (text input,
line height, guide lines, letter style, paper size: lines 103-521);
an intent whose whole strategy list misses only prints a warning and
the run moves on to the next intent with the site default. -/
def fillForm {α : Type} (intents : List (List (StrategyResult α))) :
    List (Option α) :=
  intents.map resolveList

/-- Phase A of the letter-style interaction (lines 222-274): for each
candidate menu element, scroll and click it, then look for newly
appeared letter-style option controls (the letter_options_check query
at lines 256-258). An entry is .error when the click raised (caught at
lines 265-267), and .ok b when the click went through and b records
whether the option controls appeared. letters_menu_opened becomes true
exactly when some click is confirmed by appearing controls
(lines 260-263). -/
def openLettersMenu : List (Except String Bool) → Bool
  | [] => false
  | .error _ :: rest => openLettersMenu rest
  | .ok b :: rest => if b then true else openLettersMenu rest

/-- Where a specific letter-style option got selected, if anywhere:
inside the guarded Phase B block (lines 276-313, reachable only when
letters_menu_opened is true), inside the unguarded fallback region
(lines 315-440, guarded only by letters_menu_found being still false,
never by letters_menu_opened), or nowhere (letters_menu_found stays
false and line 443 reports that the default style is used). -/
inductive LetterSelection where
  | phaseB
  | fallback
  | noneSel
  deriving DecidableEq, Repr

/-- The letter-style interaction of lines 215-443 as observed against
one page: menuAttempts are the Phase A menu-opening clicks with their
confirmation checks (lines 240-274); phaseBSel is the guarded option
lookup of Phase B over the value-synonym table (lines 278-313);
fallbackSel flattens, in source order, the fallback option lookups of
lines 315-351 (image clicks followed by radio or text options),
lines 353-387 (direct form controls such as By.NAME letterStyle or
input value selectors), lines 389-415 (section expansion) and
lines 417-440 (generic letter-related clickable elements) — each entry
one more try/except lookup that clicks an option and sets
letters_menu_found on success. -/
structure LetterEnv where
  menuAttempts : List (Except String Bool)
  phaseBSel : List (StrategyResult Unit)
  fallbackSel : List (StrategyResult Unit)

/-- The letter-style control flow of lines 222-443: Phase A computes
letters_menu_opened; the Phase B block runs only under the
letters_menu_opened guard (line 277); each fallback block then runs
whenever letters_menu_found is still false (the guards at lines 316,
354, 390 and 418), with no letters_menu_opened condition. Returns
letters_menu_opened together with where selection happened. -/
def letterStyleResolve (env : LetterEnv) : Bool × LetterSelection :=
  let opened := openLettersMenu env.menuAttempts
  if opened then
    match resolveList env.phaseBSel with
    | some _ => (opened, .phaseB)
    | none =>
      match resolveList env.fallbackSel with
      | some _ => (opened, .fallback)
      | none => (opened, .noneSel)
  else
    match resolveList env.fallbackSel with
    | some _ => (opened, .fallback)
    | none => (opened, .noneSel)

/-- Decidable equality for the recorded menu-click outcomes. -/
instance instDecEqExceptStringBool : DecidableEq (Except String Bool)
  | .ok a, .ok b => decidable_of_iff (a = b) (by simp)
  | .error a, .error b => decidable_of_iff (a = b) (by simp)
  | .ok _, .error _ => isFalse (by simp)
  | .error _, .ok _ => isFalse (by simp)

/-- Environment refuting the never-selected claim: no menu click is
ever confirmed by new option controls, yet a fallback lookup (the
direct form-control path of lines 353-387) finds and clicks a specific
letter-style option. -/
def envC4x : LetterEnv :=
  { menuAttempts := [Except.error "intercepted", Except.ok false],
    phaseBSel := [StrategyResult.found ()],
    fallbackSel := [StrategyResult.err "stale element", StrategyResult.found ()] }

/-- Environment where Phase A is confirmed and Phase B selects. -/
def envC4w : LetterEnv :=
  { menuAttempts := [Except.error "intercepted", Except.ok false, Except.ok true],
    phaseBSel := [StrategyResult.found ()],
    fallbackSel := [] }

/-- Witness data for the direct-download scenario: one pre-existing
file seed.txt, the completed w.pdf appearing at time 3. -/
def listingW1 : Nat → List String :=
  fun t => if t < 3 then ["seed.txt"] else ["seed.txt", "w.pdf"]

/-- Witness environment for the direct-download scenario. -/
def envW1 : AcqEnv :=
  { listing := listingW1, initialFiles := ["seed.txt"], currentUrl := "u",
    windowCount := 1, lastWindowUrl := "", fetch := fun _ => .error "offline",
    downloadLinks := [], downloadButtons := [] }

/-- Witness environment: only d.crdownload ever appears. -/
def envW6 : AcqEnv :=
  { listing := fun _ => ["d.crdownload"], initialFiles := [], currentUrl := "u",
    windowCount := 1, lastWindowUrl := "", fetch := fun _ => .error "offline",
    downloadLinks := [], downloadButtons := [] }

/-- Environment refuting the exhaustion clause of the acquisition
claim: no direct download, a new window whose address ends in .pdf, an
out-of-band fetch that raises, and an in-page link that a later method
would have used. -/
def envC2x : AcqEnv :=
  { listing := fun _ => [], initialFiles := [], currentUrl := "form",
    windowCount := 2, lastWindowUrl := "render/w.pdf",
    fetch := fun _ => .error "connection refused",
    downloadLinks := ["files/w.pdf"], downloadButtons := [] }

/-- Environment where every detection method fails cleanly. -/
def envC2w : AcqEnv :=
  { listing := fun _ => [], initialFiles := [], currentUrl := "form",
    windowCount := 1, lastWindowUrl := "", fetch := fun _ => .error "refused",
    downloadLinks := [], downloadButtons := [] }

/-- Environment refuting the own-address inspection of method 2: the
active page address itself ends in .pdf and the fetch oracle would
succeed, yet with a single window the acquisition fails. -/
def envC5x : AcqEnv :=
  { listing := fun _ => [], initialFiles := [], currentUrl := "render/w.pdf",
    windowCount := 1, lastWindowUrl := "", fetch := fun _ => .ok [37],
    downloadLinks := [], downloadButtons := [] }

/-- A copy of the refuting environment with a non-artifact address. -/
def envC5y : AcqEnv :=
  { listing := fun _ => [], initialFiles := [], currentUrl := "render/w.html",
    windowCount := 1, lastWindowUrl := "", fetch := fun _ => .ok [37],
    downloadLinks := [], downloadButtons := [] }

/-- Environment where method 2 succeeds through a new window. -/
def envC5w : AcqEnv :=
  { listing := fun _ => [], initialFiles := [], currentUrl := "form",
    windowCount := 2, lastWindowUrl := "render/w.pdf", fetch := fun _ => .ok [37],
    downloadLinks := [], downloadButtons := [] }

/-- Environment where the in-page link fetch raises but a Download
button then delivers the file. -/
def envC10w : AcqEnv :=
  { listing := fun _ => [], initialFiles := [], currentUrl := "form",
    windowCount := 1, lastWindowUrl := "", fetch := fun _ => .error "timeout",
    downloadLinks := ["files/w.pdf"],
    downloadButtons := [⟨.ok (), fun _ => ["w.pdf"]⟩] }

lemma filter_eq_nil_of_all_false (p : String → Bool) :
    ∀ l : List String, (∀ x ∈ l, p x = false) → l.filter p = [] := by
  intro l h
  induction l with
  | nil => rfl
  | cons a as ih =>
    have ha : p a = false := h a (List.mem_cons_self a as)
    have hrest : ∀ x ∈ as, p x = false := fun x hx => h x (List.mem_cons_of_mem a hx)
    simp [List.filter, ha, ih hrest]

lemma waitAux_detect (listing : Nat → List String) (initial : List String) :
    ∀ (fuel t t0 : Nat) (f : String) (rest : List String),
      t ≤ t0 → t0 < t + fuel →
      (∀ s, t ≤ s → s < t0 → pdfFiles (newFiles (listing s) initial) = []) →
      pdfFiles (newFiles (listing t0) initial) = f :: rest →
      waitForPdfDownloadTimedAux listing initial t fuel = some (f, t0) := by
  intro fuel
  induction fuel with
  | zero => intro t t0 f rest hle hlt _ _; omega
  | succ n ih =>
    intro t t0 f rest hle hlt hempty hdet
    rcases Nat.eq_or_lt_of_le hle with heq | hlt2
    · subst heq
      simp [waitForPdfDownloadTimedAux, hdet]
    · have ht : pdfFiles (newFiles (listing t) initial) = [] :=
        hempty t (Nat.le_refl t) hlt2
      simp only [waitForPdfDownloadTimedAux, ht]
      exact ih (t + 1) t0 f rest hlt2 (by omega)
        (fun s hs1 hs2 => hempty s (by omega) hs2) hdet

lemma waitAux_none_iff (listing : Nat → List String) (initial : List String) :
    ∀ (fuel t : Nat),
      waitForPdfDownloadTimedAux listing initial t fuel = none ↔
      ∀ s, t ≤ s → s < t + fuel → pdfFiles (newFiles (listing s) initial) = [] := by
  intro fuel
  induction fuel with
  | zero =>
    intro t
    simp only [waitForPdfDownloadTimedAux, true_iff]
    intro s h1 h2
    omega
  | succ n ih =>
    intro t
    constructor
    · intro h s hs1 hs2
      cases hc : pdfFiles (newFiles (listing t) initial) with
      | cons g rest => simp [waitForPdfDownloadTimedAux, hc] at h
      | nil =>
        have h2 : waitForPdfDownloadTimedAux listing initial (t + 1) n = none := by
          simpa [waitForPdfDownloadTimedAux, hc] using h
        rcases Nat.eq_or_lt_of_le hs1 with heq | hlt
        · subst heq; exact hc
        · exact (ih (t + 1)).mp h2 s hlt (by omega)
    · intro h
      have hc : pdfFiles (newFiles (listing t) initial) = [] :=
        h t (Nat.le_refl t) (by omega)
      simp only [waitForPdfDownloadTimedAux, hc]
      exact (ih (t + 1)).mpr (fun s hs1 hs2 => h s (by omega) (by omega))

lemma waitAux_some (listing : Nat → List String) (initial : List String) :
    ∀ (fuel t t0 : Nat) (f : String),
      waitForPdfDownloadTimedAux listing initial t fuel = some (f, t0) →
      t ≤ t0 ∧ t0 < t + fuel ∧
        ∃ rest, pdfFiles (newFiles (listing t0) initial) = f :: rest := by
  intro fuel
  induction fuel with
  | zero => intro t t0 f h; simp [waitForPdfDownloadTimedAux] at h
  | succ n ih =>
    intro t t0 f h
    cases hc : pdfFiles (newFiles (listing t) initial) with
    | cons g rest =>
      simp only [waitForPdfDownloadTimedAux, hc, Option.some.injEq, Prod.mk.injEq] at h
      obtain ⟨h1, h2⟩ := h
      subst h1
      subst h2
      exact ⟨Nat.le_refl t, by omega, rest, hc⟩
    | nil =>
      have h2 : waitForPdfDownloadTimedAux listing initial (t + 1) n = some (f, t0) := by
        simpa [waitForPdfDownloadTimedAux, hc] using h
      obtain ⟨ha, hb, hrest⟩ := ih (t + 1) t0 f h2
      exact ⟨by omega, by omega, hrest⟩

lemma acquire_m1_some (env : AcqEnv) (out f : String)
    (h : waitForPdfDownload env.listing env.initialFiles 15 = some f) :
    acquire env out = ⟨true, [.fsPoll], some out, some f, none, false⟩ := by
  unfold acquire
  rw [h]

lemma acquire_m2_pdf_ok (env : AcqEnv) (out : String) (body : List Nat)
    (hpoll : waitForPdfDownload env.listing env.initialFiles 15 = none)
    (hwin : env.windowCount > 1)
    (hurl : strEndsWith env.lastWindowUrl ".pdf" = true)
    (hfetch : env.fetch env.lastWindowUrl = .ok body) :
    acquire env out =
      ⟨true, [.fsPoll, .navWindow], some out, none, some env.lastWindowUrl, false⟩ := by
  unfold acquire
  rw [hpoll]
  simp only [if_pos hwin, if_pos hurl, hfetch]

lemma acquire_m2_raise (env : AcqEnv) (out msg : String)
    (hpoll : waitForPdfDownload env.listing env.initialFiles 15 = none)
    (hwin : env.windowCount > 1)
    (hurl : strEndsWith env.lastWindowUrl ".pdf" = true)
    (hfetch : env.fetch env.lastWindowUrl = .error msg) :
    acquire env out = ⟨false, [.fsPoll, .navWindow], none, none, none, true⟩ := by
  unfold acquire
  rw [hpoll]
  simp only [if_pos hwin, if_pos hurl, hfetch]

lemma acquire_m2_skip (env : AcqEnv) (out : String)
    (hpoll : waitForPdfDownload env.listing env.initialFiles 15 = none)
    (h : env.windowCount ≤ 1 ∨ strEndsWith env.lastWindowUrl ".pdf" = false) :
    acquire env out = acquireM3 env out := by
  unfold acquire
  rw [hpoll]
  rcases h with hwin | hurl
  · rw [if_neg (by omega)]
  · by_cases hwin : env.windowCount > 1
    · rw [if_pos hwin, if_neg (by simp [hurl])]
    · rw [if_neg hwin]

lemma acquireM3_skip (env : AcqEnv) (out : String)
    (h : env.downloadLinks = [] ∨
      ∃ href rest msg, env.downloadLinks = href :: rest ∧ env.fetch href = .error msg) :
    acquireM3 env out = acquireM4 env out := by
  unfold acquireM3
  rcases h with hnil | ⟨href, rest, msg, hcons, herr⟩
  · rw [hnil]
  · rw [hcons]
    simp only [herr]

lemma acquireM4_shapes (env : AcqEnv) (out : String) :
    (∃ f, acquireM4 env out =
      ⟨true, [.fsPoll, .navWindow, .pageLinks, .dlButtons], some out, some f, none, false⟩) ∨
    acquireM4 env out =
      ⟨false, [.fsPoll, .navWindow, .pageLinks, .dlButtons], none, none, none, false⟩ := by
  unfold acquireM4
  cases h : tryDownloadButtons env.initialFiles env.downloadButtons with
  | some f => left; exact ⟨f, rfl⟩
  | none => right; rfl

lemma acquireM3_link_ok (env : AcqEnv) (out href : String) (rest : List String)
    (body : List Nat) (hl : env.downloadLinks = href :: rest)
    (hf : env.fetch href = .ok body) :
    acquireM3 env out =
      ⟨true, [.fsPoll, .navWindow, .pageLinks], some out, none, some href, false⟩ := by
  unfold acquireM3
  rw [hl]
  simp only [hf]

lemma acquireM3_shapes (env : AcqEnv) (out : String) :
    (∃ href, acquireM3 env out =
      ⟨true, [.fsPoll, .navWindow, .pageLinks], some out, none, some href, false⟩) ∨
    (∃ f, acquireM3 env out =
      ⟨true, [.fsPoll, .navWindow, .pageLinks, .dlButtons], some out, some f, none, false⟩) ∨
    acquireM3 env out =
      ⟨false, [.fsPoll, .navWindow, .pageLinks, .dlButtons], none, none, none, false⟩ := by
  have hvia4 : acquireM3 env out = acquireM4 env out →
      (∃ f, acquireM3 env out =
        ⟨true, [.fsPoll, .navWindow, .pageLinks, .dlButtons], some out, some f, none, false⟩) ∨
      acquireM3 env out =
        ⟨false, [.fsPoll, .navWindow, .pageLinks, .dlButtons], none, none, none, false⟩ := by
    intro heq
    rcases acquireM4_shapes env out with ⟨f, h4⟩ | h4
    · left; exact ⟨f, heq.trans h4⟩
    · right; exact heq.trans h4
  cases hl : env.downloadLinks with
  | nil => exact Or.inr (hvia4 (acquireM3_skip env out (Or.inl hl)))
  | cons href rest =>
    cases hf : env.fetch href with
    | ok body => exact Or.inl ⟨href, acquireM3_link_ok env out href rest body hl hf⟩
    | error msg =>
      exact Or.inr (hvia4 (acquireM3_skip env out (Or.inr ⟨href, rest, msg, hl, hf⟩)))

lemma acquire_shapes (env : AcqEnv) (out : String) :
    (∃ f, acquire env out = ⟨true, [.fsPoll], some out, some f, none, false⟩) ∨
    acquire env out =
      ⟨true, [.fsPoll, .navWindow], some out, none, some env.lastWindowUrl, false⟩ ∨
    acquire env out = ⟨false, [.fsPoll, .navWindow], none, none, none, true⟩ ∨
    (∃ href, acquire env out =
      ⟨true, [.fsPoll, .navWindow, .pageLinks], some out, none, some href, false⟩) ∨
    (∃ f, acquire env out =
      ⟨true, [.fsPoll, .navWindow, .pageLinks, .dlButtons], some out, some f, none, false⟩) ∨
    acquire env out =
      ⟨false, [.fsPoll, .navWindow, .pageLinks, .dlButtons], none, none, none, false⟩ := by
  unfold acquire
  cases h1 : waitForPdfDownload env.listing env.initialFiles 15 with
  | some f => left; exact ⟨f, rfl⟩
  | none =>
    right
    by_cases hwin : env.windowCount > 1
    · rw [if_pos hwin]
      by_cases hurl : strEndsWith env.lastWindowUrl ".pdf" = true
      · rw [if_pos hurl]
        cases hf : env.fetch env.lastWindowUrl with
        | ok body => left; rfl
        | error msg => right; left; rfl
      · rw [if_neg hurl]
        rcases acquireM3_shapes env out with ⟨href, h3⟩ | ⟨f, h3⟩ | h3
        · right; right; left; exact ⟨href, h3⟩
        · right; right; right; left; exact ⟨f, h3⟩
        · right; right; right; right; exact h3
    · rw [if_neg hwin]
      rcases acquireM3_shapes env out with ⟨href, h3⟩ | ⟨f, h3⟩ | h3
      · right; right; left; exact ⟨href, h3⟩
      · right; right; right; left; exact ⟨f, h3⟩
      · right; right; right; right; exact h3

lemma navWindow_attempted_of_poll_none (env : AcqEnv) (out : String)
    (h : waitForPdfDownload env.listing env.initialFiles 15 = none) :
    Method.navWindow ∈ (acquire env out).attempted := by
  have hskip3 : Method.navWindow ∈ (acquireM3 env out).attempted := by
    rcases acquireM3_shapes env out with ⟨href, h3⟩ | ⟨f, h3⟩ | h3 <;> rw [h3] <;> simp
  unfold acquire
  rw [h]
  by_cases hwin : env.windowCount > 1
  · rw [if_pos hwin]
    by_cases hurl : strEndsWith env.lastWindowUrl ".pdf" = true
    · rw [if_pos hurl]
      cases hf : env.fetch env.lastWindowUrl with
      | ok body => simp
      | error msg => simp
    · rw [if_neg hurl]; exact hskip3
  · rw [if_neg hwin]; exact hskip3

lemma generateRun_trace_ends (pre : Except String Bool) (diag : Except String Unit)
    (env : AcqEnv) (out : String) :
    ∃ es, (generateRun (.ok ()) pre diag env out).2 =
      es ++ [Event.diagnostics, Event.quitDriver] := by
  cases pre with
  | error m => exact ⟨[.pageLoad], rfl⟩
  | ok b =>
    cases b with
    | false => exact ⟨[.pageLoad, .formFill], rfl⟩
    | true => exact ⟨[.pageLoad, .formFill, .submitClick], rfl⟩

lemma openLettersMenu_true_mem :
    ∀ attempts : List (Except String Bool),
      openLettersMenu attempts = true → Except.ok true ∈ attempts := by
  intro attempts
  induction attempts with
  | nil => intro h; simp [openLettersMenu] at h
  | cons a rest ih =>
    intro h
    cases a with
    | error m =>
      exact List.mem_cons_of_mem _ (ih (by simpa [openLettersMenu] using h))
    | ok b =>
      cases b with
      | true => exact List.mem_cons_self _ _
      | false =>
        exact List.mem_cons_of_mem _ (ih (by simpa [openLettersMenu] using h))

lemma resolveList_none {α : Type} :
    ∀ rs : List (StrategyResult α),
      (∀ r ∈ rs, r.isFound = false) → resolveList rs = none := by
  intro rs
  induction rs with
  | nil => intro _; rfl
  | cons a rest ih =>
    intro h
    cases a with
    | err m => exact ih (fun r hr => h r (List.mem_cons_of_mem _ hr))
    | miss => exact ih (fun r hr => h r (List.mem_cons_of_mem _ hr))
    | found c =>
      have := h (.found c) (List.mem_cons_self _ _)
      simp [StrategyResult.isFound] at this

/-- C1: when the directory evolves from the pre-submission snapshot to a
state whose new-file set is exactly one completed .pdf file f at a time
below the configured timeout, filesystem polling detects f within the
timeout, the fixed grace period of 2 seconds is waited after detection,
and the acquisition renames f to the caller-specified output name in
the download directory before the run reports success. -/
theorem pollingDetectsRenamesWithGrace (env : AcqEnv) (out f : String) (t0 : Nat)
    (ht : t0 < 15)
    (hbefore : ∀ s, s < t0 → pdfFiles (newFiles (env.listing s) env.initialFiles) = [])
    (hnew : newFiles (env.listing t0) env.initialFiles = [f])
    (hpdf : isPdfName f = true) :
    waitForPdfDownload env.listing env.initialFiles 15 = some f ∧
    waitForPdfDownloadTimedAux env.listing env.initialFiles 0 15 = some (f, t0) ∧
    waitForPdfDownloadReturnTime env.listing env.initialFiles 15 =
      some (t0 + gracePeriod) ∧
    gracePeriod = 2 ∧
    acquire env out = ⟨true, [.fsPoll], some out, some f, none, false⟩ ∧
    (generateRun (.ok ()) (.ok true) (.ok ()) env out).1 = .returned true := by
  have hdet : pdfFiles (newFiles (env.listing t0) env.initialFiles) = f :: [] := by
    rw [hnew]
    simp [pdfFiles, List.filter, hpdf]
  have haux : waitForPdfDownloadTimedAux env.listing env.initialFiles 0 15 =
      some (f, t0) :=
    waitAux_detect env.listing env.initialFiles 15 0 t0 f []
      (Nat.zero_le t0) (by omega) (fun s _ hs => hbefore s hs) hdet
  have hw : waitForPdfDownload env.listing env.initialFiles 15 = some f := by
    simp [waitForPdfDownload, haux]
  have hacq := acquire_m1_some env out f hw
  refine ⟨hw, haux, ?_, rfl, hacq, ?_⟩
  · simp [waitForPdfDownloadReturnTime, haux]
  · simp [generateRun, setupDriver, hacq]

/-- Concrete instance of the direct-download theorem. -/
theorem pollingDetectsRenamesWithGrace_witness :
    waitForPdfDownload envW1.listing envW1.initialFiles 15 = some "w.pdf" ∧
    waitForPdfDownloadTimedAux envW1.listing envW1.initialFiles 0 15 =
      some ("w.pdf", 3) ∧
    waitForPdfDownloadReturnTime envW1.listing envW1.initialFiles 15 =
      some (3 + gracePeriod) ∧
    gracePeriod = 2 ∧
    acquire envW1 "out.pdf" =
      ⟨true, [.fsPoll], some "out.pdf", some "w.pdf", none, false⟩ ∧
    (generateRun (.ok ()) (.ok true) (.ok ()) envW1 "out.pdf").1 = .returned true :=
  pollingDetectsRenamesWithGrace envW1 "out.pdf" "w.pdf" 3
    (by decide) (by decide) (by decide) (by decide)

/-- C6: when every new directory entry before the timeout is an
in-progress .crdownload file and no completed .pdf file ever appears,
filesystem polling returns none instead of blocking, and the
acquisition control flow reaches detection method 2. -/
theorem inProgressOnlyTimesOutFallsThrough (env : AcqEnv) (out : String)
    (h : ∀ s, s < 15 → ∀ f ∈ newFiles (env.listing s) env.initialFiles,
      isInProgressName f = true ∧ isPdfName f = false) :
    waitForPdfDownload env.listing env.initialFiles 15 = none ∧
    Method.navWindow ∈ (acquire env out).attempted := by
  have hempty : ∀ s, s < 15 →
      pdfFiles (newFiles (env.listing s) env.initialFiles) = [] := by
    intro s hs
    exact filter_eq_nil_of_all_false _ _ (fun x hx => (h s hs x hx).2)
  have haux := (waitAux_none_iff env.listing env.initialFiles 15 0).mpr
    (fun s _ hs2 => hempty s (by omega))
  have hw : waitForPdfDownload env.listing env.initialFiles 15 = none := by
    simp [waitForPdfDownload, haux]
  exact ⟨hw, navWindow_attempted_of_poll_none env out hw⟩

/-- Concrete instance of the in-progress-only theorem. -/
theorem inProgressOnlyTimesOutFallsThrough_witness :
    waitForPdfDownload envW6.listing envW6.initialFiles 15 = none ∧
    Method.navWindow ∈ (acquire envW6 "out.pdf").attempted :=
  inProgressOnlyTimesOutFallsThrough envW6 "out.pdf" (by decide)

/-- C9: the polling loop of wait_for_pdf_download is timeout bounded:
for every directory evolution, snapshot and timeout it either detects a
file at a poll time strictly below the timeout or returns none, having
inspected only the poll times below the timeout. -/
theorem pollingIsTimeoutBounded (listing : Nat → List String)
    (initial : List String) (timeout : Nat) :
    (∃ f t0, t0 < timeout ∧
      waitForPdfDownloadTimedAux listing initial 0 timeout = some (f, t0) ∧
      waitForPdfDownload listing initial timeout = some f ∧
      waitForPdfDownloadReturnTime listing initial timeout =
        some (t0 + gracePeriod)) ∨
    (waitForPdfDownload listing initial timeout = none ∧
      ∀ s, s < timeout → pdfFiles (newFiles (listing s) initial) = []) := by
  cases haux : waitForPdfDownloadTimedAux listing initial 0 timeout with
  | none =>
    right
    refine ⟨by simp [waitForPdfDownload, haux], ?_⟩
    intro s hs
    exact (waitAux_none_iff listing initial timeout 0).mp haux s (Nat.zero_le s)
      (by omega)
  | some p =>
    left
    obtain ⟨f, t0⟩ := p
    obtain ⟨h1, h2, h3⟩ := waitAux_some listing initial timeout 0 t0 f haux
    refine ⟨f, t0, ?_, rfl, ?_, ?_⟩
    · omega
    · simp [waitForPdfDownload, haux]
    · simp [waitForPdfDownloadReturnTime, haux]

/-- C3: a strategy that raises is treated as a non-match and resolution
continues with the next strategy; when no strategy in the list yields a
candidate, resolution evaluates to none (it is a total function, so it
never raises); and the form-filling region processes every intent
regardless of such misses. -/
theorem resolveAbsorbsErrorsNeverRaises {α : Type} (m : String)
    (rs : List (StrategyResult α)) (intents : List (List (StrategyResult α)))
    (hall : ∀ r ∈ rs, r.isFound = false) :
    resolveList (StrategyResult.err m :: rs) = resolveList rs ∧
    resolveList rs = none ∧
    resolveList (StrategyResult.err m :: rs) = none ∧
    (fillForm intents).length = intents.length := by
  have hnone := resolveList_none rs hall
  exact ⟨rfl, hnone, hnone, by simp [fillForm]⟩

/-- Concrete instance of the resolution theorem: two strategies, one
raising and one missing, over Nat candidates. -/
theorem resolveAbsorbsErrorsNeverRaises_witness :
    resolveList (StrategyResult.err (α := Nat) "stale element" ::
      [StrategyResult.miss, StrategyResult.err "timeout"]) =
      resolveList [StrategyResult.miss, StrategyResult.err (α := Nat) "timeout"] ∧
    resolveList [StrategyResult.miss, StrategyResult.err (α := Nat) "timeout"] = none ∧
    resolveList (StrategyResult.err (α := Nat) "stale element" ::
      [StrategyResult.miss, StrategyResult.err "timeout"]) = none ∧
    (fillForm [[StrategyResult.found (37 : Nat)], [StrategyResult.miss]]).length =
      [[StrategyResult.found (37 : Nat)], [StrategyResult.miss]].length :=
  resolveAbsorbsErrorsNeverRaises "stale element"
    [StrategyResult.miss, StrategyResult.err "timeout"]
    [[StrategyResult.found (37 : Nat)], [StrategyResult.miss]] (by decide)

/-- C4 counterexample: with no menu click ever confirmed by the
appearance of new option controls, the fallback region of lines
315-440 still selects a specific letter-style option, so the program
selects without a confirmed Phase A, refuting the claim as stated. -/
theorem letterStyleClaimCounterexample :
    openLettersMenu envC4x.menuAttempts = false ∧
    Except.ok true ∉ envC4x.menuAttempts ∧
    (letterStyleResolve envC4x).2 = LetterSelection.fallback := by decide

/-- C4 (amended): the guarded Phase B block itself is never attempted
without Phase A confirmation — a Phase B selection implies that
letters_menu_opened is true, which in turn means some menu click was
followed by newly appeared option controls — while without that
confirmation any selection can only come from the unguarded fallback
region of lines 315-440. -/
theorem phaseBOnlyAfterMenuConfirmed (env : LetterEnv) :
    ((letterStyleResolve env).2 = LetterSelection.phaseB →
      openLettersMenu env.menuAttempts = true ∧
      Except.ok true ∈ env.menuAttempts) ∧
    (openLettersMenu env.menuAttempts = false →
      (letterStyleResolve env).2 = LetterSelection.fallback ∨
      (letterStyleResolve env).2 = LetterSelection.noneSel) := by
  have hnotB : openLettersMenu env.menuAttempts = false →
      (letterStyleResolve env).2 = LetterSelection.fallback ∨
      (letterStyleResolve env).2 = LetterSelection.noneSel := by
    intro hop
    cases hr : resolveList env.fallbackSel with
    | some c => left; simp [letterStyleResolve, hop, hr]
    | none => right; simp [letterStyleResolve, hop, hr]
  refine ⟨?_, hnotB⟩
  intro h
  cases hcase : openLettersMenu env.menuAttempts with
  | true => exact ⟨rfl, openLettersMenu_true_mem env.menuAttempts hcase⟩
  | false =>
    rcases hnotB hcase with hf | hn
    · rw [h] at hf
      exact absurd hf (by decide)
    · rw [h] at hn
      exact absurd hn (by decide)

/-- Concrete instance of the amended two-phase theorem: a confirmed
Phase A followed by a Phase B selection, and an unconfirmed Phase A
whose only selection route is the fallback region. -/
theorem phaseBOnlyAfterMenuConfirmed_witness :
    (openLettersMenu envC4w.menuAttempts = true ∧
      Except.ok true ∈ envC4w.menuAttempts) ∧
    ((letterStyleResolve envC4x).2 = LetterSelection.fallback ∨
      (letterStyleResolve envC4x).2 = LetterSelection.noneSel) :=
  ⟨(phaseBOnlyAfterMenuConfirmed envC4w).1 (by decide),
    (phaseBOnlyAfterMenuConfirmed envC4x).2 (by decide)⟩

/-- C7: once the browser session exists, every exit path of the run —
acquisition success, detection exhaustion, or an exception reaching the
outer handler — first attempts the best-effort diagnostic capture and
then releases the session with driver.quit, whatever the outcome of the
diagnostics themselves. -/
theorem cleanupRunsOnEveryExitPath (pre : Except String Bool)
    (diag : Except String Unit) (env : AcqEnv) (out : String) :
    ∃ es, (generateRun (.ok ()) pre diag env out).2 =
      es ++ [Event.diagnostics, Event.quitDriver] :=
  generateRun_trace_ends pre diag env out

/-- C8: when the webdriver constructor raises, setup_driver calls
sys.exit(1): the run ends with exit code 1, no page interaction event
and no diagnostic capture ever happens. -/
theorem setupFailureExitsBeforeInteraction (msg : String)
    (pre : Except String Bool) (diag : Except String Unit) (env : AcqEnv)
    (out : String) :
    setupDriver (.error msg) = .error 1 ∧
    generateRun (.error msg) pre diag env out = (.exited 1, []) := by
  exact ⟨rfl, rfl⟩

/-- C2 counterexample: the run returns failure although detection
methods 3 and 4 were never attempted — the unguarded requests.get of
method 2 (line 587 has no try block) raises, the outer handler at
line 640 returns False, and the in-page link and button methods are
skipped; so failure does not imply that all four methods were
exhausted. -/
theorem acquisitionClaimCounterexample :
    (acquire envC2x "out.pdf").success = false ∧
    (acquire envC2x "out.pdf").raised = true ∧
    Method.pageLinks ∉ (acquire envC2x "out.pdf").attempted ∧
    Method.dlButtons ∉ (acquire envC2x "out.pdf").attempted := by decide

/-- C2 (amended): after submission the four detection methods are tried
in the fixed order with short-circuit on first success, the succeeding
method persisting the artifact under the caller-specified name; when
the run returns failure without an escaped exception all four methods
were attempted; the one exception path is the unguarded fetch of
method 2, which returns failure after only methods 1 and 2; and in
every case after session setup the diagnostics are still collected
before the session is released. -/
theorem acquisitionOrderShortCircuit (env : AcqEnv) (out : String) :
    ((acquire env out).success = true →
      (acquire env out).persistedAs = some out ∧
      ((acquire env out).attempted = [.fsPoll] ∨
       (acquire env out).attempted = [.fsPoll, .navWindow] ∨
       (acquire env out).attempted = [.fsPoll, .navWindow, .pageLinks] ∨
       (acquire env out).attempted =
         [.fsPoll, .navWindow, .pageLinks, .dlButtons])) ∧
    ((acquire env out).success = false → (acquire env out).raised = false →
      (acquire env out).attempted = [.fsPoll, .navWindow, .pageLinks, .dlButtons]) ∧
    ((acquire env out).raised = true →
      (acquire env out).success = false ∧
      (acquire env out).attempted = [.fsPoll, .navWindow]) ∧
    (∀ pre diag, ∃ es, (generateRun (.ok ()) pre diag env out).2 =
      es ++ [Event.diagnostics, Event.quitDriver]) := by
  refine ⟨?_, ?_, ?_, fun pre diag => generateRun_trace_ends pre diag env out⟩ <;>
    rcases acquire_shapes env out with ⟨f, hq⟩ | hq | hq | ⟨href, hq⟩ | ⟨f, hq⟩ | hq <;>
    rw [hq] <;> simp

/-- Concrete instance of the amended acquisition theorem: a clean
failure has attempted all four methods. -/
theorem acquisitionOrderShortCircuit_witness :
    (acquire envC2w "out.pdf").attempted =
      [.fsPoll, .navWindow, .pageLinks, .dlButtons] :=
  (acquisitionOrderShortCircuit envC2w "out.pdf").2.1 (by decide) (by decide)

/-- C5 counterexample: method 2 never tests the active page address —
the code only prints current_url (lines 573-574). In an environment
whose own address ends in .pdf and whose fetch would succeed, the
acquisition still fails, and the outcome is identical to the same
environment with a non-artifact address. -/
theorem method2ClaimCounterexample :
    strEndsWith envC5x.currentUrl ".pdf" = true ∧
    (acquire envC5x "out.pdf").success = false ∧
    acquire envC5x "out.pdf" = acquire envC5y "out.pdf" := by decide

/-- C5 (amended): method 2 reads and logs the active page address but
never acts on it — the acquisition outcome is invariant under changing
currentUrl; only when a new window exists does it switch to the newest
window, and when that window address ends in .pdf and the out-of-band
fetch succeeds, the artifact is persisted under the output name. -/
theorem method2NewWindowOnly (env : AcqEnv) (out u : String) :
    acquire { env with currentUrl := u } out = acquire env out ∧
    (waitForPdfDownload env.listing env.initialFiles 15 = none →
      env.windowCount > 1 →
      strEndsWith env.lastWindowUrl ".pdf" = true →
      ∀ body, env.fetch env.lastWindowUrl = .ok body →
      acquire env out =
        ⟨true, [.fsPoll, .navWindow], some out, none, some env.lastWindowUrl, false⟩) := by
  constructor
  · rfl
  · intro hpoll hwin hurl body hfetch
    exact acquire_m2_pdf_ok env out body hpoll hwin hurl hfetch

/-- Concrete instance of the amended method 2 theorem. -/
theorem method2NewWindowOnly_witness :
    acquire { envC5w with currentUrl := "other" } "out.pdf" =
      acquire envC5w "out.pdf" ∧
    acquire envC5w "out.pdf" =
      ⟨true, [.fsPoll, .navWindow], some "out.pdf", none,
        some envC5w.lastWindowUrl, false⟩ :=
  ⟨(method2NewWindowOnly envC5w "out.pdf" "other").1,
    (method2NewWindowOnly envC5w "out.pdf" "other").2 (by decide) (by decide)
      (by decide) [37] rfl⟩

/-- C10: when method 3 finds a .pdf anchor but the out-of-band fetch of
its href raises, the error is absorbed by the try block at lines
603-610 — nothing escapes to the outer handler — and method 4 is still
attempted before the run is marked failed. -/
theorem linkFetchErrorReachesMethod4 (env : AcqEnv) (out href msg : String)
    (rest : List String)
    (hpoll : waitForPdfDownload env.listing env.initialFiles 15 = none)
    (hwin : env.windowCount ≤ 1)
    (hlinks : env.downloadLinks = href :: rest)
    (hfetch : env.fetch href = .error msg) :
    acquire env out = acquireM4 env out ∧
    (acquire env out).raised = false ∧
    Method.dlButtons ∈ (acquire env out).attempted := by
  have hm4 : acquire env out = acquireM4 env out :=
    (acquire_m2_skip env out hpoll (Or.inl hwin)).trans
      (acquireM3_skip env out (Or.inr ⟨href, rest, msg, hlinks, hfetch⟩))
  refine ⟨hm4, ?_, ?_⟩ <;> rw [hm4] <;>
    rcases acquireM4_shapes env out with ⟨f, h4⟩ | h4 <;> rw [h4] <;> simp

/-- Concrete instance of the link-fetch-error theorem: after the failed
fetch, the button of method 4 delivers the artifact. -/
theorem linkFetchErrorReachesMethod4_witness :
    acquire envC10w "out.pdf" = acquireM4 envC10w "out.pdf" ∧
    (acquire envC10w "out.pdf").raised = false ∧
    Method.dlButtons ∈ (acquire envC10w "out.pdf").attempted :=
  linkFetchErrorReachesMethod4 envC10w "out.pdf" "files/w.pdf" "timeout" []
    (by decide) (by decide) (by decide) rfl
